import Mathlib

/-!
# Verification of the email backup server core

A shallow embedding, in Lean, of `src/email_backup_server.py`:
the `EmailBackupHandler` class, its constructor (`Handler.init`), the
recipient hook (`handle_RCPT`), the three validators
(`validate_sender_domain`, `validate_spf`, `validate_required_headers`)
and the data hook (`handle_DATA`).

Modelling conventions:
* Python strings are Lean `String` (a list of characters in this toolchain);
  `str.lower()` is `pyLower`, `str.strip()` is `pyStrip`,
  `s.split("@")[-1]` is `afterLastAt`, `s.split(":", 1)` is `splitFirst`.
* The Python `dict` used for required headers is an insertion-ordered
  association list with overwrite-in-place semantics (`dictInsert`),
  matching CPython dict behaviour.
* The stdlib email parser is an external collaborator (spec §1); a raw byte
  string is represented by the structured `Message` the parser yields for
  it, so `message_from_bytes` is the identity on this representation.
* The external SPF verifier (`spf.check2`) is an explicit argument of type
  `String → String → String → SpfOutcome`; `.ok r e` models a normal return
  of `(result, explanation)` and `.exc m` models a raised exception, which
  the `try`/`except` in `_validate_spf` catches.
* The Maildir store (`mailbox.Maildir`, also an external collaborator) is an
  explicit argument `store : Message → StoreOutcome`; `.err e` models a
  raised filesystem exception.  `handle_DATA` contains no `try`/`except`
  around `self.maildir.add(msg)`, so a store exception is modelled as the
  `DataResult.uncaught` constructor: the fault leaves `handle_DATA`
  unconverted to a status string.
* `handle_DATA` additionally returns the list of `Event`s it performed, in
  execution order, so that ordering, short-circuiting and
  nothing-was-stored claims are statable.
-/

namespace EmailBackup

/-- Python `str.lower()` (ASCII case folding, the fragment exercised by the
configuration and the protocol). -/
def pyLower (s : String) : String :=
  String.mk (s.data.map Char.toLower)

/-- Python `str.strip()`: drop whitespace from both ends. -/
def pyStrip (s : String) : String :=
  String.mk
    (((s.data.dropWhile Char.isWhitespace).reverse.dropWhile
        Char.isWhitespace).reverse)

/-- Python truthiness of an optional string: `None` and `""` are falsy. -/
def pyTruthy : Option String → Bool
  | none => false
  | some s => decide (s ≠ "")

/-- Python `s.split("@")[-1]` on the character list: the suffix after the
last `'@'`, the whole list when no `'@'` occurs. -/
def afterLastAt : List Char → List Char
  | [] => []
  | c :: cs =>
    if cs.contains '@' then afterLastAt cs
    else if c = '@' then cs else c :: cs

/-- Python `s.split(sep, 1)` when `sep` occurs: the parts before and after
the first occurrence. -/
def splitFirst (sep : Char) : List Char → List Char × List Char
  | [] => ([], [])
  | c :: cs =>
    if c = sep then ([], cs)
    else
      let p := splitFirst sep cs
      (c :: p.1, p.2)

/-- Python `":" in s`. -/
def hasColon (s : String) : Bool :=
  s.data.contains ':'

/-- CPython `dict` assignment `m[k] = v` on an insertion-ordered association
list: an existing key keeps its position and gets the new value, a new key
is appended at the end. -/
def dictInsert (k v : String) : List (String × String) → List (String × String)
  | [] => [(k, v)]
  | (k', v') :: rest =>
    if k' = k then (k, v) :: rest else (k', v') :: dictInsert k v rest

/-- One iteration of the `required_headers` loop in
`EmailBackupHandler.__init__`: entries containing `":"` are split on the
first colon, stripped, lower-cased and inserted; entries without a colon are
skipped. -/
def requiredHeadersStep (m : List (String × String)) (header_pair : String) :
    List (String × String) :=
  if hasColon header_pair then
    let p := splitFirst ':' header_pair.data
    dictInsert (pyLower (pyStrip (String.mk p.1))) (pyLower (pyStrip (String.mk p.2))) m
  else m

/-- The `required_headers` dict built by `EmailBackupHandler.__init__` from
the list of `"Header-Name:value"` configuration entries. -/
def buildRequiredHeaders (entries : List String) : List (String × String) :=
  entries.foldl requiredHeadersStep []

/-- The structured view of a parsed email (`email.message.Message`): an
ordered list of header name/value pairs and a body. -/
structure Message where
  headers : List (String × String)
  body : String
deriving Repr, DecidableEq

/-- Python `msg.get(name, failobj)`: the value of the first header whose
name matches case-insensitively, or the default when absent. -/
def Message.get (m : Message) (name dflt : String) : String :=
  match m.headers.find? (fun p => pyLower p.1 = pyLower name) with
  | some p => p.2
  | none => dflt

/-- Raw message bytes, represented by the `Message` the stdlib parser
yields for them (the parser is an external collaborator, spec §1). -/
abbrev RawBytes := Message

/-- Embeds `email.message_from_bytes`: the identity on the chosen representation
of raw bytes. -/
def message_from_bytes (b : RawBytes) : Message := b

/-- The aiosmtpd `Envelope` as used by the handler: sender, accepted
recipients, raw content. -/
structure Envelope where
  mail_from : String
  rcpt_tos : List String
  content : RawBytes
deriving Repr, DecidableEq

/-- The aiosmtpd `Session` as used by the handler: `peer` (IP and port) and
the HELO name, absent when the attribute is missing. -/
structure Session where
  peer : String × Nat
  host_name : Option String
deriving Repr, DecidableEq

/-- Outcome of a call to the external SPF verifier `spf.check2`:
a normal `(result, explanation)` return, or a raised exception. -/
inductive SpfOutcome where
  | ok (result : String) (explanation : String)
  | exc (message : String)
deriving Repr, DecidableEq

/-- Outcome of `mailbox.Maildir.add`: the new storage key, or a raised
filesystem exception. -/
inductive StoreOutcome where
  | ok (key : Nat)
  | err (message : String)
deriving Repr, DecidableEq

/-- Embeds `EmailBackupHandler`'s policy state after `__init__` (the maildir
object itself is the external `store` argument of `handle_DATA`). -/
structure Handler where
  allowed_recipient : Option String
  allowed_sender_domains : List String
  require_spf_pass : Bool
  required_headers : List (String × String)
deriving Repr, DecidableEq

/-- Embeds `EmailBackupHandler.__init__`: lower-case the allowed recipient
(falsy argument → `None`), lower-case the sender-domain allow-list
(falsy argument → `[]`), keep the SPF flag, and build the required-headers
dict with `buildRequiredHeaders`. -/
def Handler.init (allowed_recipient : Option String)
    (allowed_sender_domains : Option (List String))
    (require_spf_pass : Bool)
    (required_headers : Option (List String)) : Handler :=
  { allowed_recipient :=
      match allowed_recipient with
      | some s => if s = "" then none else some (pyLower s)
      | none => none
    allowed_sender_domains :=
      match allowed_sender_domains with
      | some ds => ds.map pyLower
      | none => []
    require_spf_pass := require_spf_pass
    required_headers := buildRequiredHeaders (required_headers.getD []) }

/-- The accepting branch of `handle_RCPT`: append the address to
`envelope.rcpt_tos` and reply `250 OK`. -/
def acceptRcpt (envelope : Envelope) (address : String) : String × Envelope :=
  ("250 OK", { envelope with rcpt_tos := envelope.rcpt_tos ++ [address] })

/-- Embeds `EmailBackupHandler.handle_RCPT`: when an allowed recipient is
configured (truthy), reject any address whose lower-casing differs from it;
otherwise accept and append.  Returns the status string and the (possibly
updated) envelope. -/
def Handler.handle_RCPT (h : Handler) (envelope : Envelope) (address : String) :
    String × Envelope :=
  if pyTruthy h.allowed_recipient then
    if pyLower address ≠ h.allowed_recipient.getD "" then
      ("550 Recipient not accepted", envelope)
    else acceptRcpt envelope address
  else acceptRcpt envelope address

/-- Embeds `EmailBackupHandler._validate_sender_domain`: pass when no allow-list is
configured; otherwise the lower-cased suffix after the last `@` of the
sender must be in the (already lower-cased) list.  `none` means pass,
`some s` means the status string `s` is returned. -/
def Handler.validate_sender_domain (h : Handler) (envelope : Envelope) :
    Option String :=
  if h.allowed_sender_domains = [] then none
  else
    let sender_domain := pyLower (String.mk (afterLastAt envelope.mail_from.data))
    if ¬ h.allowed_sender_domains.contains sender_domain then
      some "550 Sender domain not authorized"
    else none

/-- Embeds `EmailBackupHandler._validate_spf`: pass when the flag is off; otherwise
invoke the verifier with (client IP, sender, HELO name or "unknown") and map
its outcome: results other than `pass`/`none` → 550 embedding the result; a
raised exception → 451; otherwise pass. -/
def Handler.validate_spf (h : Handler) (session : Session) (envelope : Envelope)
    (check2 : String → String → String → SpfOutcome) : Option String :=
  if ¬ h.require_spf_pass then none
  else
    let client_ip := session.peer.1
    let helo_name := session.host_name.getD "unknown"
    match check2 client_ip envelope.mail_from helo_name with
    | .ok result _ =>
      if ¬ (result = "pass" ∨ result = "none") then
        some ("550 SPF validation failed: " ++ result)
      else none
    | .exc _ => some "451 SPF validation error"

/-- The loop body of `_validate_required_headers`: reject with the uniform
status on the first pair whose header value (first match,
case-insensitive, `""` when absent) does not lower-case to the expected
value. -/
def checkRequiredHeaders (msg : Message) : List (String × String) → Option String
  | [] => none
  | (required_header, required_value) :: rest =>
    if pyLower (msg.get required_header "") ≠ required_value then
      some "550 Message rejected"
    else checkRequiredHeaders msg rest

/-- Embeds `EmailBackupHandler._validate_required_headers`: pass when the dict is
empty (falsy), otherwise run the loop over its pairs in order. -/
def Handler.validate_required_headers (h : Handler) (msg : Message) :
    Option String :=
  if h.required_headers = [] then none
  else checkRequiredHeaders msg h.required_headers

/-- The status returned by `handle_DATA`, or an exception that left it
uncaught (there is no `try`/`except` in `handle_DATA`). -/
inductive DataResult where
  | status (s : String)
  | uncaught (e : String)
deriving Repr, DecidableEq

/-- Whether `handle_DATA` returned a status string (as opposed to letting
an exception propagate). -/
def DataResult.isStatus : DataResult → Bool
  | .status _ => true
  | .uncaught _ => false

/-- The observable operations of `handle_DATA`, recorded in execution
order. -/
inductive Event where
  | checkedSenderDomain
  | invokedSpfVerifier
  | parsedMessage
  | checkedHeaders
  | storeWrite (m : Message)
deriving Repr, DecidableEq

/-- The verifier-invocation events of the SPF step: `_validate_spf` calls
`spf.check2` exactly when the flag is on. -/
def spfEvents (h : Handler) : List Event :=
  if h.require_spf_pass then [.invokedSpfVerifier] else []

/-- The three provenance headers stamped by `handle_DATA`
(`msg[...] = ...` appends to the header list in the stdlib `Message`). -/
def provenanceHeaders (now : String) (envelope : Envelope) :
    List (String × String) :=
  [("X-Backup-Received", now),
   ("X-Backup-From", envelope.mail_from),
   ("X-Backup-To", String.intercalate ", " envelope.rcpt_tos)]

/-- Embeds `EmailBackupHandler.handle_DATA`: run `_validate_sender_domain`, then
`_validate_spf`, then parse the content, then `_validate_required_headers`,
returning the first rejection status; on full acceptance stamp the three
provenance headers and add the result to the maildir.  `now` is
`datetime.now().isoformat()`; `store` is `self.maildir.add`, whose
exception (not being caught anywhere in `handle_DATA`) yields
`DataResult.uncaught`.  Also returns the events performed, in order. -/
def Handler.handle_DATA (h : Handler) (session : Session) (envelope : Envelope)
    (check2 : String → String → String → SpfOutcome)
    (now : String) (store : Message → StoreOutcome) :
    DataResult × List Event :=
  match h.validate_sender_domain envelope with
  | some error => (.status error, [.checkedSenderDomain])
  | none =>
    match h.validate_spf session envelope check2 with
    | some error => (.status error, .checkedSenderDomain :: spfEvents h)
    | none =>
      let msg := message_from_bytes envelope.content
      match h.validate_required_headers msg with
      | some error =>
        (.status error,
         .checkedSenderDomain :: spfEvents h ++ [.parsedMessage, .checkedHeaders])
      | none =>
        let stamped : Message :=
          { msg with headers := msg.headers ++ provenanceHeaders now envelope }
        match store stamped with
        | .err e =>
          (.uncaught e,
           .checkedSenderDomain :: spfEvents h ++
             [.parsedMessage, .checkedHeaders, .storeWrite stamped])
        | .ok _ =>
          (.status "250 Message accepted for delivery",
           .checkedSenderDomain :: spfEvents h ++
             [.parsedMessage, .checkedHeaders, .storeWrite stamped])

/-- Whether `Maildir.add` returned normally. -/
def StoreOutcome.isOk : StoreOutcome → Bool
  | .ok _ => true
  | .err _ => false

/-- Fixture: a parsed message with two headers. -/
def msg0 : Message := ⟨[("From", "joe@hey.com"), ("Subject", "hi")], "body"⟩

/-- Fixture: a completed envelope. -/
def env0 : Envelope := ⟨"joe@hey.com", ["backup@x.com"], msg0⟩

/-- Fixture: a session with peer IP and HELO name. -/
def sess0 : Session := ⟨("203.0.113.5", 2525), some "client.example"⟩

/-- Fixture: a verifier that returns `pass`. -/
def check2pass : String → String → String → SpfOutcome :=
  fun _ _ _ => .ok "pass" "sender SPF authorized"

/-- Fixture: a store whose write raises a filesystem error. -/
def storeFail : Message → StoreOutcome := fun _ => .err "disk full"

/-- Fixture: a store whose write succeeds. -/
def storeOk : Message → StoreOutcome := fun _ => .ok 1

/-- Fixture: an envelope whose sender address contains no `@`. -/
def envNoAt : Envelope := ⟨"HEY.com", [], msg0⟩

/-! ## Helper lemmas -/

theorem toLower_idem_char (c : Char) : c.toLower.toLower = c.toLower := by
  simp only [Char.toLower]
  by_cases h : c.toNat ≥ 65 ∧ c.toNat ≤ 90
  · rw [if_pos h]
    have hv : (c.toNat + 32).isValidChar := Or.inl (by omega)
    have ht : (Char.ofNat (c.toNat + 32)).toNat = c.toNat + 32 := by
      rw [Char.ofNat, dif_pos hv]
      simp [Char.ofNatAux, Char.toNat, UInt32.toNat, BitVec.toNat_ofNatLt]
    rw [ht, if_neg (by omega)]
  · rw [if_neg h, if_neg h]

theorem pyLower_idem (s : String) : pyLower (pyLower s) = pyLower s := by
  simp [pyLower, List.map_map, Function.comp_def, toLower_idem_char]

theorem pyLower_eq_empty_iff (s : String) : pyLower s = "" ↔ s = "" := by
  constructor
  · intro h
    have hd : s.data.map Char.toLower = ([] : List Char) := congrArg String.data h
    rcases s with ⟨d⟩
    cases d with
    | nil => rfl
    | cons c cs => simp at hd
  · intro h
    subst h
    rfl

theorem afterLastAt_of_not_contains (l : List Char) (h : l.contains '@' = false) :
    afterLastAt l = l := by
  induction l with
  | nil => rfl
  | cons c cs ih =>
    have h' : ('@' == c) = false ∧ cs.contains '@' = false := by
      simpa [List.contains_cons, Bool.or_eq_false_iff] using h
    have hc : ¬ (c = '@') := by
      intro hc
      rw [hc] at h'
      simp at h'
    rw [afterLastAt, if_neg (by rw [h'.2]; exact Bool.false_ne_true), if_neg hc]

theorem buildRequiredHeaders_values_lowered (entries : List String) :
    ∀ p ∈ buildRequiredHeaders entries, pyLower p.2 = p.2 := by
  have key : ∀ (es : List String) (acc : List (String × String)),
      (∀ p ∈ acc, pyLower p.2 = p.2) →
      ∀ p ∈ es.foldl requiredHeadersStep acc, pyLower p.2 = p.2 := by
    intro es
    induction es with
    | nil => intro acc hacc p hp; exact hacc p hp
    | cons e rest ih =>
      intro acc hacc p hp
      refine ih (requiredHeadersStep acc e) ?_ p hp
      intro q hq
      by_cases hcol : hasColon e
      · simp only [requiredHeadersStep, if_pos hcol] at hq
        -- q is in dictInsert k v acc with v a pyLower image
        have : ∀ (k v : String) (m : List (String × String)),
            pyLower v = v → (∀ r ∈ m, pyLower r.2 = r.2) →
            ∀ r ∈ dictInsert k v m, pyLower r.2 = r.2 := by
          intro k v m hv
          induction m with
          | nil => intro _ r hr; simp [dictInsert] at hr; simp [hr, hv]
          | cons x xs ihm =>
            intro hm r hr
            simp only [dictInsert] at hr
            by_cases hk : x.1 = k
            · rw [if_pos hk] at hr
              rcases List.mem_cons.mp hr with h1 | h2
              · simp [h1, hv]
              · exact hm r (List.mem_cons_of_mem _ h2)
            · rw [if_neg hk] at hr
              rcases List.mem_cons.mp hr with h1 | h2
              · exact hm r (by simp [h1])
              · exact ihm (fun r hr => hm r (List.mem_cons_of_mem _ hr)) r h2
        exact this _ _ acc (pyLower_idem _) hacc q hq
      · simp only [requiredHeadersStep, if_neg hcol] at hq
        exact hacc q hq
  intro p hp
  exact key entries [] (by intro q hq; simp at hq) p hp

/-! ## Claim theorems -/

theorem mapPyLower_ne_nil (ds : List String) (h : ds ≠ []) : ds.map pyLower ≠ [] := by
  simpa using h

/-- C4: when an allowed recipient is configured (a non-empty address),
`handle_RCPT` accepts a candidate address exactly when its case-folding
equals the configured address's case-folding, appending it to the
envelope's recipient list and replying `250 OK`; otherwise it replies
`550 Recipient not accepted` and leaves the envelope unchanged.  When no
allowed recipient is configured, every address is accepted and appended. -/
theorem handle_RCPT_spec (r : String) (hr : r ≠ "")
    (ds : Option (List String)) (sp : Bool) (rh : Option (List String))
    (envelope : Envelope) (A : String) :
    ((Handler.init (some r) ds sp rh).handle_RCPT envelope A =
        (if pyLower A = pyLower r
         then ("250 OK", { envelope with rcpt_tos := envelope.rcpt_tos ++ [A] })
         else ("550 Recipient not accepted", envelope))) ∧
    (Handler.init none ds sp rh).handle_RCPT envelope A =
      ("250 OK", { envelope with rcpt_tos := envelope.rcpt_tos ++ [A] }) := by
  constructor
  · have hne : pyLower r ≠ "" := fun h => hr ((pyLower_eq_empty_iff r).mp h)
    by_cases hA : pyLower A = pyLower r
    · simp [Handler.handle_RCPT, Handler.init, hr, pyTruthy, hne, hA, acceptRcpt]
    · simp [Handler.handle_RCPT, Handler.init, hr, pyTruthy, hne, hA, acceptRcpt]
  · simp [Handler.handle_RCPT, Handler.init, pyTruthy, acceptRcpt]

/-- C5: with a non-empty sender-domain allow-list configured,
`_validate_sender_domain` passes exactly when the case-folded substring
after the last `@` of the sender address is a member of the case-folded
allow-list, and rejects with `550 Sender domain not authorized` exactly
when it is not; with no allow-list configured it always passes. -/
theorem validate_sender_domain_spec
    (ar : Option String) (ds : List String) (hds : ds ≠ []) (sp : Bool)
    (rh : Option (List String)) (envelope : Envelope) :
    ((Handler.init ar (some ds) sp rh).validate_sender_domain envelope = none ↔
       pyLower (String.mk (afterLastAt envelope.mail_from.data)) ∈ ds.map pyLower) ∧
    ((Handler.init ar (some ds) sp rh).validate_sender_domain envelope =
        some "550 Sender domain not authorized" ↔
       pyLower (String.mk (afterLastAt envelope.mail_from.data)) ∉ ds.map pyLower) ∧
    (Handler.init ar none sp rh).validate_sender_domain envelope = none := by
  have hmap : ds.map pyLower ≠ [] := mapPyLower_ne_nil ds hds
  refine ⟨?_, ?_, ?_⟩
  · simp only [Handler.validate_sender_domain, Handler.init, if_neg hmap]
    by_cases hmem : pyLower (String.mk (afterLastAt envelope.mail_from.data)) ∈ ds.map pyLower
    · simp [hmem]
    · simp [hmem]
  · simp only [Handler.validate_sender_domain, Handler.init, if_neg hmap]
    by_cases hmem : pyLower (String.mk (afterLastAt envelope.mail_from.data)) ∈ ds.map pyLower
    · simp [hmem]
    · simp [hmem]
  · simp [Handler.validate_sender_domain, Handler.init]

/-- C10: a sender address containing no `@` is treated whole as the
domain: with a non-empty allow-list configured, `_validate_sender_domain`
passes exactly when the full case-folded address is itself a member of the
case-folded allow-list, and rejects otherwise. -/
theorem validate_sender_domain_no_at_spec
    (ar : Option String) (ds : List String) (hds : ds ≠ []) (sp : Bool)
    (rh : Option (List String)) (envelope : Envelope)
    (hat : envelope.mail_from.data.contains '@' = false) :
    ((Handler.init ar (some ds) sp rh).validate_sender_domain envelope = none ↔
       pyLower envelope.mail_from ∈ ds.map pyLower) ∧
    ((Handler.init ar (some ds) sp rh).validate_sender_domain envelope =
        some "550 Sender domain not authorized" ↔
       pyLower envelope.mail_from ∉ ds.map pyLower) := by
  have hmap : ds.map pyLower ≠ [] := mapPyLower_ne_nil ds hds
  have hafter : String.mk (afterLastAt envelope.mail_from.data) =
      envelope.mail_from := by
    rw [afterLastAt_of_not_contains _ hat]
  constructor
  · simp only [Handler.validate_sender_domain, Handler.init, if_neg hmap, hafter]
    by_cases hmem : pyLower envelope.mail_from ∈ ds.map pyLower
    · simp [hmem]
    · simp [hmem]
  · simp only [Handler.validate_sender_domain, Handler.init, if_neg hmap, hafter]
    by_cases hmem : pyLower envelope.mail_from ∈ ds.map pyLower
    · simp [hmem]
    · simp [hmem]

/-- C3: the SPF result mapping of `_validate_spf` is total and exhaustive.
When the require-pass flag is off the check passes for every verifier, so
the verifier is never consulted (the result does not depend on it).  When
the flag is on: verifier result `pass` passes, `none` passes, any other
definite result rejects with a permanent 550 status embedding the result,
and a raised verifier exception rejects with the transient
`451 SPF validation error`. -/
theorem validate_spf_spec (h : Handler) (session : Session) (envelope : Envelope)
    (check2 : String → String → String → SpfOutcome) :
    (h.require_spf_pass = false →
      h.validate_spf session envelope check2 = none ∧
      ∀ check2b, h.validate_spf session envelope check2 =
        h.validate_spf session envelope check2b) ∧
    (h.require_spf_pass = true →
      (∀ ex, check2 session.peer.1 envelope.mail_from
            (session.host_name.getD "unknown") = .ok "pass" ex →
        h.validate_spf session envelope check2 = none) ∧
      (∀ ex, check2 session.peer.1 envelope.mail_from
            (session.host_name.getD "unknown") = .ok "none" ex →
        h.validate_spf session envelope check2 = none) ∧
      (∀ r ex, check2 session.peer.1 envelope.mail_from
            (session.host_name.getD "unknown") = .ok r ex →
        r ≠ "pass" → r ≠ "none" →
        h.validate_spf session envelope check2 =
          some ("550 SPF validation failed: " ++ r)) ∧
      (∀ e, check2 session.peer.1 envelope.mail_from
            (session.host_name.getD "unknown") = .exc e →
        h.validate_spf session envelope check2 =
          some "451 SPF validation error")) := by
  constructor
  · intro hoff
    constructor
    · simp [Handler.validate_spf, hoff]
    · intro check2b
      simp [Handler.validate_spf, hoff]
  · intro hon
    refine ⟨?_, ?_, ?_, ?_⟩
    · intro ex hc
      simp [Handler.validate_spf, hon, hc]
    · intro ex hc
      simp [Handler.validate_spf, hon, hc]
    · intro r ex hc hp hn
      simp [Handler.validate_spf, hon, hc, hp, hn]
    · intro e hc
      simp [Handler.validate_spf, hon, hc]

theorem checkRequiredHeaders_eq_none_iff (msg : Message)
    (l : List (String × String)) :
    checkRequiredHeaders msg l = none ↔
      ∀ p ∈ l, pyLower (msg.get p.1 "") = p.2 := by
  induction l with
  | nil => simp [checkRequiredHeaders]
  | cons p rest ih =>
    obtain ⟨n, v⟩ := p
    rw [checkRequiredHeaders]
    by_cases hv : pyLower (msg.get n "") = v
    · rw [if_neg (not_not_intro hv), ih]
      constructor
      · intro hall q hq
        rcases List.mem_cons.mp hq with h1 | h2
        · rw [h1]
          exact hv
        · exact hall q h2
      · intro hall q hq
        exact hall q (List.mem_cons_of_mem _ hq)
    · rw [if_pos hv]
      constructor
      · intro hc
        exact absurd hc (by simp)
      · intro hall
        exact absurd (hall (n, v) (List.mem_cons_self _ _)) hv

theorem checkRequiredHeaders_some (msg : Message) (l : List (String × String)) :
    ∀ st, checkRequiredHeaders msg l = some st → st = "550 Message rejected" := by
  induction l with
  | nil =>
    intro st h
    simp [checkRequiredHeaders] at h
  | cons p rest ih =>
    intro st h
    obtain ⟨n, v⟩ := p
    rw [checkRequiredHeaders] at h
    by_cases hv : pyLower (msg.get n "") = v
    · rw [if_neg (not_not_intro hv)] at h
      exact ih st h
    · rw [if_pos hv] at h
      exact (Option.some_inj.mp h).symm

/-- C6: with the required-headers map built by `__init__`, the header
check passes when the map is empty; it passes in general exactly when, for
every (name, expected-value) pair of the map, the first header of the
message matching the name case-insensitively (the empty string when
absent) equals the expected value case-insensitively; and every rejection
carries the uniform status `550 Message rejected`, whichever pair
failed. -/
theorem validate_required_headers_spec
    (ar : Option String) (ds : Option (List String)) (sp : Bool)
    (entries : List String) (msg : Message) :
    ((Handler.init ar ds sp (some entries)).required_headers = [] →
      (Handler.init ar ds sp (some entries)).validate_required_headers msg = none) ∧
    ((Handler.init ar ds sp (some entries)).validate_required_headers msg = none ↔
      ∀ p ∈ (Handler.init ar ds sp (some entries)).required_headers,
        pyLower (msg.get p.1 "") = pyLower p.2) ∧
    (∀ st, (Handler.init ar ds sp (some entries)).validate_required_headers msg =
        some st → st = "550 Message rejected") := by
  have hlow : ∀ p ∈ (Handler.init ar ds sp (some entries)).required_headers,
      pyLower p.2 = p.2 := by
    intro p hp
    exact buildRequiredHeaders_values_lowered entries p hp
  refine ⟨?_, ?_, ?_⟩
  · intro hemp
    simp [Handler.validate_required_headers, hemp]
  · by_cases hemp : (Handler.init ar ds sp (some entries)).required_headers = []
    · simp [Handler.validate_required_headers, hemp]
    · rw [Handler.validate_required_headers, if_neg hemp,
        checkRequiredHeaders_eq_none_iff]
      constructor
      · intro hall p hp
        rw [hlow p hp]
        exact hall p hp
      · intro hall p hp
        rw [← hlow p hp]
        exact hall p hp
  · intro st hst
    by_cases hemp : (Handler.init ar ds sp (some entries)).required_headers = []
    · rw [Handler.validate_required_headers, if_pos hemp] at hst
      exact absurd hst (by simp)
    · rw [Handler.validate_required_headers, if_neg hemp] at hst
      exact checkRequiredHeaders_some msg _ st hst

/-- C8: a required-headers configuration entry with no colon is silently
dropped when the map is built — the map, and hence the header check on
every message, is the same as if the entry were absent — while an entry
with a colon is split on the first colon into a (stripped, case-folded)
header name and expected value. -/
theorem buildRequiredHeaders_spec
    (pre post : List String) (e : String) (he : hasColon e = false)
    (ar : Option String) (ds : Option (List String)) (sp : Bool) (msg : Message) :
    buildRequiredHeaders (pre ++ e :: post) = buildRequiredHeaders (pre ++ post) ∧
    (Handler.init ar ds sp (some (pre ++ e :: post))).validate_required_headers msg =
      (Handler.init ar ds sp (some (pre ++ post))).validate_required_headers msg ∧
    ∀ (done : List String) (e2 : String), hasColon e2 = true →
      buildRequiredHeaders (done ++ [e2]) =
        dictInsert (pyLower (pyStrip (String.mk (splitFirst ':' e2.data).1)))
          (pyLower (pyStrip (String.mk (splitFirst ':' e2.data).2)))
          (buildRequiredHeaders done) := by
  have hdrop : buildRequiredHeaders (pre ++ e :: post) =
      buildRequiredHeaders (pre ++ post) := by
    simp only [buildRequiredHeaders, List.foldl_append, List.foldl_cons]
    rw [requiredHeadersStep, if_neg (by simp [he])]
  refine ⟨hdrop, ?_, ?_⟩
  · simp only [Handler.validate_required_headers, Handler.init, Option.getD_some]
    rw [hdrop]
  · intro done e2 he2
    simp only [buildRequiredHeaders, List.foldl_append, List.foldl_cons,
      List.foldl_nil]
    rw [requiredHeadersStep, if_pos (by simp [he2])]

/-- C2: `handle_DATA` runs the checks in the fixed order sender-domain,
then SPF, then parse, then required-headers, short-circuiting: if
sender-domain rejects, its status is returned and the event trace stops
there; likewise for SPF and for the header check; and a store write occurs
in the trace only when all three checks passed. -/
theorem handle_DATA_order_spec (h : Handler) (session : Session)
    (envelope : Envelope) (check2 : String → String → String → SpfOutcome)
    (now : String) (store : Message → StoreOutcome) :
    (∀ e, h.validate_sender_domain envelope = some e →
      h.handle_DATA session envelope check2 now store =
        (.status e, [.checkedSenderDomain])) ∧
    (h.validate_sender_domain envelope = none →
      ∀ e, h.validate_spf session envelope check2 = some e →
      h.handle_DATA session envelope check2 now store =
        (.status e, .checkedSenderDomain :: spfEvents h)) ∧
    (h.validate_sender_domain envelope = none →
      h.validate_spf session envelope check2 = none →
      ∀ e, h.validate_required_headers (message_from_bytes envelope.content) =
          some e →
      h.handle_DATA session envelope check2 now store =
        (.status e,
         .checkedSenderDomain :: spfEvents h ++
           [.parsedMessage, .checkedHeaders])) ∧
    (∀ m, Event.storeWrite m ∈ (h.handle_DATA session envelope check2 now store).2 →
      h.validate_sender_domain envelope = none ∧
      h.validate_spf session envelope check2 = none ∧
      h.validate_required_headers (message_from_bytes envelope.content) = none) := by
  refine ⟨?_, ?_, ?_, ?_⟩
  · intro e h1
    simp [Handler.handle_DATA, h1]
  · intro h1 e h2
    simp [Handler.handle_DATA, h1, h2]
  · intro h1 h2 e h3
    simp [Handler.handle_DATA, h1, h2, h3]
  · intro m hm
    rcases hd : h.validate_sender_domain envelope with _ | e1
    · rcases hs : h.validate_spf session envelope check2 with _ | e2
      · rcases hh : h.validate_required_headers (message_from_bytes envelope.content)
          with _ | e3
        · exact ⟨rfl, rfl, rfl⟩
        · simp [Handler.handle_DATA, hd, hs, hh, spfEvents] at hm
      · simp [Handler.handle_DATA, hd, hs, spfEvents] at hm
    · simp [Handler.handle_DATA, hd] at hm

/-- C1 (amended): policy rejections and SPF verifier exceptions are
returned by `handle_DATA` as statuses, but a filesystem error raised by
the message-store write is not caught anywhere in `handle_DATA`: when all
checks pass and the store raises, the fault propagates out of
`handle_DATA` uncaught instead of being converted to a 451 status. -/
theorem handle_DATA_storage_error_uncaught (h : Handler) (session : Session)
    (envelope : Envelope) (check2 : String → String → String → SpfOutcome)
    (now e : String)
    (h1 : h.validate_sender_domain envelope = none)
    (h2 : h.validate_spf session envelope check2 = none)
    (h3 : h.validate_required_headers (message_from_bytes envelope.content) = none) :
    (h.handle_DATA session envelope check2 now (fun _ => .err e)).1 =
      .uncaught e ∧
    ((h.handle_DATA session envelope check2 now (fun _ => .err e)).1).isStatus =
      false := by
  simp [Handler.handle_DATA, h1, h2, h3, DataResult.isStatus]


/-- C1 counterexample: a concrete transaction in which every check passes
and the store write raises `disk full`; `handle_DATA` yields the uncaught
fault, not a status — refuting the claim that a message-store filesystem
error is returned as a transient 451 status. -/
theorem handle_DATA_storage_error_counterexample :
    ((Handler.init none none false none).handle_DATA sess0 env0 check2pass
        "2024-01-01T00:00:00" storeFail).1 = .uncaught "disk full" ∧
    (((Handler.init none none false none).handle_DATA sess0 env0 check2pass
        "2024-01-01T00:00:00" storeFail).1).isStatus = false := by
  constructor
  · rfl
  · rfl

/-- C1 amended witness: the concrete storage fault leaves `handle_DATA` uncaught. -/
theorem handle_DATA_storage_error_uncaught_witness :
    ((Handler.init none none false none).handle_DATA sess0 env0 check2pass
        "2024-01-01T00:00:00" (fun _ => .err "disk full")).1 =
      .uncaught "disk full" :=
  (handle_DATA_storage_error_uncaught (Handler.init none none false none)
    sess0 env0 check2pass "2024-01-01T00:00:00" "disk full" rfl rfl rfl).1

/-- C7: for an accepted and stored message, the stored record's headers
are exactly the parsed original's headers followed by the three provenance
headers (receipt timestamp, accepted sender, comma-joined accepted
recipients) — so every original header is preserved and exactly three are
added — and the body is unchanged.  In this pure embedding the stamped
record is a new value; the `Message` derived from the envelope bytes is
unaffected. -/
theorem handle_DATA_provenance_spec (h : Handler) (session : Session)
    (envelope : Envelope) (check2 : String → String → String → SpfOutcome)
    (now : String) (store : Message → StoreOutcome)
    (h1 : h.validate_sender_domain envelope = none)
    (h2 : h.validate_spf session envelope check2 = none)
    (h3 : h.validate_required_headers (message_from_bytes envelope.content) = none)
    (hok : ∀ m, (store m).isOk = true) :
    ∃ stored : Message,
      h.handle_DATA session envelope check2 now store =
        (.status "250 Message accepted for delivery",
         .checkedSenderDomain :: spfEvents h ++
           [.parsedMessage, .checkedHeaders, .storeWrite stored]) ∧
      stored.headers =
        (message_from_bytes envelope.content).headers ++
          [("X-Backup-Received", now),
           ("X-Backup-From", envelope.mail_from),
           ("X-Backup-To", String.intercalate ", " envelope.rcpt_tos)] ∧
      stored.body = (message_from_bytes envelope.content).body ∧
      stored.headers.length =
        (message_from_bytes envelope.content).headers.length + 3 := by
  refine ⟨{ message_from_bytes envelope.content with
      headers := (message_from_bytes envelope.content).headers ++
        provenanceHeaders now envelope }, ?_, ?_, rfl, ?_⟩
  · rcases hst : store ({ message_from_bytes envelope.content with
      headers := (message_from_bytes envelope.content).headers ++
        provenanceHeaders now envelope }) with k | e
    · simp [Handler.handle_DATA, h1, h2, h3, hst]
    · have := hok ({ message_from_bytes envelope.content with
        headers := (message_from_bytes envelope.content).headers ++
          provenanceHeaders now envelope })
      rw [hst] at this
      exact absurd this (by simp [StoreOutcome.isOk])
  · simp [provenanceHeaders]
  · simp [provenanceHeaders]

/-- C4 witness: `handle_RCPT` at a concrete configured recipient. -/
theorem handle_RCPT_spec_witness :
    (Handler.init (some "b@x.com") none false none).handle_RCPT env0 "B@X.com" =
      ("250 OK", { env0 with rcpt_tos := env0.rcpt_tos ++ ["B@X.com"] }) := by
  have h := (handle_RCPT_spec "b@x.com" (by decide) none false none env0
    "B@X.com").1
  rw [h]
  decide

/-- C5 witness: a concrete allow-listed sender domain passes. -/
theorem validate_sender_domain_spec_witness :
    (Handler.init none (some ["Hey.com"]) false none).validate_sender_domain
      env0 = none := by
  have h := (validate_sender_domain_spec none ["Hey.com"] (by decide) false
    none env0).1
  exact h.mpr (by decide)

/-- C10 witness: an at-sign-free sender equal to a configured domain passes. -/
theorem validate_sender_domain_no_at_witness :
    (Handler.init none (some ["hey.com"]) false none).validate_sender_domain
      envNoAt = none := by
  have h := (validate_sender_domain_no_at_spec none ["hey.com"] (by decide)
    false none envNoAt (by decide)).1
  exact h.mpr (by decide)

/-- C3 witness: a concrete `softfail` verifier result maps to the 550 status. -/
theorem validate_spf_spec_witness :
    (Handler.init none none true none).validate_spf sess0 env0
        (fun _ _ _ => .ok "softfail" "") =
      some "550 SPF validation failed: softfail" :=
  ((validate_spf_spec (Handler.init none none true none) sess0 env0
      (fun _ _ _ => .ok "softfail" "")).2 rfl).2.2.1 "softfail" "" rfl
    (by decide) (by decide)

/-- C6 witness: a concrete case-insensitive header match passes. -/
theorem validate_required_headers_spec_witness :
    (Handler.init none none false
        (some ["X-Source:Trusted"])).validate_required_headers
      ⟨[("x-SOURCE", "TRUSTED")], "b"⟩ = none := by
  have h := (validate_required_headers_spec none none false ["X-Source:Trusted"]
    ⟨[("x-SOURCE", "TRUSTED")], "b"⟩).2.1
  exact h.mpr (by decide)

/-- C8 witness: a concrete colon-free entry is dropped from the map. -/
theorem buildRequiredHeaders_spec_witness :
    buildRequiredHeaders (["A:1"] ++ "malformed" :: ["B:2"]) =
      buildRequiredHeaders (["A:1"] ++ ["B:2"]) :=
  (buildRequiredHeaders_spec ["A:1"] ["B:2"] "malformed" (by decide)
      none none false msg0).1

/-- C2 witness: a concrete domain rejection short-circuits the data phase. -/
theorem handle_DATA_order_spec_witness :
    (Handler.init none (some ["other.com"]) false none).handle_DATA sess0 env0
        check2pass "t" storeOk =
      (.status "550 Sender domain not authorized", [.checkedSenderDomain]) :=
  (handle_DATA_order_spec (Handler.init none (some ["other.com"]) false none)
      sess0 env0 check2pass "t" storeOk).1
    "550 Sender domain not authorized" (by decide)

/-- C7 witness: the concrete stored record equals the original plus the three provenance headers. -/
theorem handle_DATA_provenance_spec_witness :
    (Handler.init none none false none).handle_DATA sess0 env0 check2pass "t"
        storeOk =
      (.status "250 Message accepted for delivery",
       [.checkedSenderDomain, .parsedMessage, .checkedHeaders,
        .storeWrite ⟨msg0.headers ++ provenanceHeaders "t" env0, "body"⟩]) := by
  obtain ⟨stored, h1, h2, h3, h4⟩ :=
    handle_DATA_provenance_spec (Handler.init none none false none) sess0 env0
      check2pass "t" storeOk rfl rfl rfl (fun m => rfl)
  have hst : stored = ⟨msg0.headers ++ provenanceHeaders "t" env0, "body"⟩ := by
    cases stored
    simp_all [provenanceHeaders, message_from_bytes, env0, msg0]
  rw [h1, hst]
  simp [spfEvents, Handler.init]

end EmailBackup
